import Mathlib

/-!
Shallow embedding of the nonconformist library's inductive conformal
predictors (`nonconformist/icp.py`) and aggregated conformal predictors
(`nonconformist/acp.py`), together with theorems settling the specification
claims about them.

Modelling conventions:
* numpy float arrays become `List ℚ`; 2-d arrays of p-values become
  `List (List ℚ)` stored column-major (one inner list per class, in the
  order of `self.classes`; each inner list has one entry per query row).
* The nonconformity function is an abstract parameter
  `calc_nc : List α → List ℤ → List ℚ` (its contract: one score per input
  row); classification labels are `ℤ`, feature rows are an arbitrary
  type `α`.
* The stream of uniform draws produced by `np.random.uniform(0, 1, n)` in
  `IcpClassifier.predict` is an explicit oracle `u : ℕ → ℕ → ℚ`, where
  `u j i` is the draw for query row `j` in the loop iteration for class
  column `i`; draws of `np.random.uniform(0, 1)` lie in `[0, 1)`.
* A Python attribute that may be unset or `None` becomes an `Option`;
  Python exceptions become `Except PyError`.
-/

/-- Python exceptions relevant to the embedded code paths.
`attributeError` models the built-in `AttributeError` raised when reading a
missing attribute or an attribute of `None`; `notCalibratedError` models the
dedicated error type named by the specification, which the source code never
defines nor raises (it exists here only so that statements about it can be
expressed). -/
inductive PyError where
  | attributeError : String → PyError
  | notCalibratedError : PyError
deriving DecidableEq

/-- Output of `IcpClassifier.predict` and of the classification path of
`AggregatedCp.predict`: either the raw p-value matrix (significance absent
or falsy) or the boolean prediction-set matrix (significance truthy).
Matrices are stored column-major: entry `(i, j)` is class column `i`,
query row `j`. -/
inductive ClassifierOutput where
  | pvals : List (List ℚ) → ClassifierOutput
  | sets : List (List Bool) → ClassifierOutput
deriving DecidableEq

/-- Entry accessor for the p-value form of a `ClassifierOutput`
(class column `i`, query row `j`; out-of-range reads give `0`). -/
def ClassifierOutput.entryP : ClassifierOutput → ℕ → ℕ → ℚ
  | .pvals m, i, j => (m.getD i []).getD j 0
  | .sets _, _, _ => 0

/-- Entry accessor for the boolean prediction-set form of a
`ClassifierOutput` (class column `i`, query row `j`; out-of-range reads
give `false`). -/
def ClassifierOutput.entryB : ClassifierOutput → ℕ → ℕ → Bool
  | .sets m, i, j => (m.getD i []).getD j false
  | .pvals _, _, _ => false

/-- Python truthiness of the `significance` argument, as tested by
`if significance:` in `icp.py` line 181 and `acp.py` line 166:
`None` and `0.0` are falsy, every other float is truthy. -/
def truthy : Option ℚ → Bool
  | none => false
  | some s => decide (s ≠ 0)

/-! ### The class hierarchy and `get_problem_type` (`icp.py` lines 16-31, 123, 209)

CPython name mangling rewrites an identifier of the form `__problem_type`
occurring anywhere in the body of `class C` into `_C__problem_type`.  Hence
the three assignments `__problem_type = ...` in `BaseIcp`, `IcpClassifier`
and `IcpRegressor` create three distinct class attributes, and the body of
`BaseIcp.get_problem_type`, which reads `cls.__problem_type`, is compiled to
read `cls._BaseIcp__problem_type` for every receiver class `cls`. -/

/-- The three predictor classes defined in `icp.py`. -/
inductive CpClass where
  | baseIcp
  | icpClassifier
  | icpRegressor
deriving DecidableEq

/-- Method resolution order of each class (single inheritance from
`BaseIcp`). -/
def mro : CpClass → List CpClass
  | .baseIcp => [.baseIcp]
  | .icpClassifier => [.icpClassifier, .baseIcp]
  | .icpRegressor => [.icpRegressor, .baseIcp]

/-- The problem-type entries of each class `__dict__` after name mangling:
`BaseIcp` stores Python `None` under `_BaseIcp__problem_type`,
`IcpClassifier` stores the string under `_IcpClassifier__problem_type`
(`icp.py` line 123) and `IcpRegressor` under `_IcpRegressor__problem_type`
(line 209).  The outer `Option` is presence of the attribute, the inner
`Option String` is the stored value (`none` = Python `None`). -/
def classDict : CpClass → String → Option (Option String)
  | .baseIcp, "_BaseIcp__problem_type" => some none
  | .icpClassifier, "_IcpClassifier__problem_type" => some (some "classification")
  | .icpRegressor, "_IcpRegressor__problem_type" => some (some "regression")
  | _, _ => none

/-- Class attribute lookup: first class along the MRO whose `__dict__`
holds the attribute. -/
def classAttrLookup (c : CpClass) (name : String) : Option (Option String) :=
  ((mro c).filterMap fun b => classDict b name).head?

/-- Embedding of `BaseIcp.get_problem_type` (`icp.py` lines 22-31): its body
reads `cls.__problem_type`, which - being inside `class BaseIcp` - is the
mangled attribute `_BaseIcp__problem_type`.  The lookup always succeeds
because `BaseIcp` is on every MRO, so the `getD` default is never used. -/
def get_problem_type (cls : CpClass) : Option String :=
  (classAttrLookup cls "_BaseIcp__problem_type").getD none

/-! ### `BaseIcp` calibration state (`icp.py` lines 33-91) -/

/-- Calibration-relevant instance state of a `BaseIcp`.  `cal_x`/`cal_y`
are initialised to Python `None` in `__init__`; `cal_scores` does not exist
as an attribute before the first `calibrate` call, which `none` models. -/
structure BaseIcpState (α κ : Type) where
  cal_x : Option (List α) := none
  cal_y : Option (List κ) := none
  cal_scores : Option (List ℚ) := none
deriving DecidableEq

/-- The calibration-set update shared by `BaseIcp._update_calibration_set`
(`icp.py` lines 86-91): under `increment` with both prior parts present,
`np.vstack`/`np.hstack` append the new rows, otherwise plain assignment. -/
def updateCalPair {α κ : Type} (cal_x : Option (List α)) (cal_y : Option (List κ))
    (x : List α) (y : List κ) (increment : Bool) : List α × List κ :=
  if increment && cal_x.isSome && cal_y.isSome then
    (cal_x.getD [] ++ x, cal_y.getD [] ++ y)
  else
    (x, y)

/-- Embedding of `BaseIcp._update_calibration_set` (`icp.py` lines 86-91). -/
def BaseIcp.update_calibration_set {α κ : Type} (st : BaseIcpState α κ)
    (x : List α) (y : List κ) (increment : Bool) : BaseIcpState α κ :=
  let cs := updateCalPair st.cal_x st.cal_y x y increment
  { st with cal_x := some cs.1, cal_y := some cs.2 }

/-- Embedding of `BaseIcp.calibrate` (`icp.py` lines 55-81), without the
`_calibrate_hook` (a no-op in `BaseIcp`; in `IcpClassifier` it only touches
the label set, not the calibration set): update the calibration set, then
recompute the full score vector by applying the nonconformity function to
the entire current calibration set. -/
def BaseIcp.calibrate {α κ : Type} (calc_nc : List α → List κ → List ℚ)
    (st : BaseIcpState α κ) (x : List α) (y : List κ) (increment : Bool) :
    BaseIcpState α κ :=
  let st1 := BaseIcp.update_calibration_set st x y increment
  { st1 with cal_scores := some (calc_nc (st1.cal_x.getD []) (st1.cal_y.getD [])) }

/-! ### `IcpClassifier` label set (`icp.py` lines 131-138) -/

/-- Embedding of `np.unique`: the sorted list of distinct values. -/
def npUnique (l : List ℤ) : List ℤ :=
  l.toFinset.sort (fun a b => a ≤ b)

/-- Embedding of `IcpClassifier._update_classes` (`icp.py` lines 134-138):
`np.unique(y)` when no classes exist yet or the call is non-incremental,
otherwise `np.unique(np.hstack([classes, y]))`. -/
def IcpClassifier.update_classes (classes : Option (List ℤ)) (y : List ℤ)
    (increment : Bool) : List ℤ :=
  if classes.isNone || !increment then npUnique y
  else npUnique (classes.getD [] ++ y)

/-! ### `IcpClassifier.predict` (`icp.py` lines 140-184) -/

/-- Embedding of `np.sum(self.cal_scores >= nc)` (`icp.py` line 173): the
number of calibration scores greater than or equal to the test score. -/
def npSumGe (cal_scores : List ℚ) (nc : ℚ) : ℕ :=
  cal_scores.countP fun s => decide (nc ≤ s)

/-- The per-entry addend of the smoothing step (`icp.py` lines 176-179) for
class column `i`, query row `j`: the uniform draw `u j i` over `n_cal + 1`
when smoothing is on, else the constant `1 / (n_cal + 1)`. -/
def smoothTerm (n_cal : ℕ) (smoothing : Bool) (u : ℕ → ℕ → ℚ) (i j : ℕ) : ℚ :=
  (if smoothing then u j i else 1) / ((n_cal : ℚ) + 1)

/-- One column of the p-value matrix, for class column index `i` holding
label `c` (`icp.py` lines 163-179): `test_nc_scores = calc_nc(x, fill(c))`,
base entries `n_ge / (n_cal + 1)` filled per query row by the inner loop,
then the column-wise `+=` of the smoothing vector. -/
def pColumn {α : Type} (calc_nc : List α → List ℤ → List ℚ) (cal_scores : List ℚ)
    (smoothing : Bool) (u : ℕ → ℕ → ℚ) (x : List α) (i : ℕ) (c : ℤ) : List ℚ :=
  let test_nc_scores := calc_nc x (List.replicate x.length c)
  let base := test_nc_scores.map fun nc =>
    (npSumGe cal_scores nc : ℚ) / ((cal_scores.length : ℚ) + 1)
  List.zipWith (fun v j => v + smoothTerm cal_scores.length smoothing u i j)
    base (List.range x.length)

/-- The full p-value matrix of `IcpClassifier.predict` (column-major: the
outer loop `for i, c in enumerate(self.classes)` produces one column per
known class). -/
def pMatrix {α : Type} (calc_nc : List α → List ℤ → List ℚ) (cal_scores : List ℚ)
    (smoothing : Bool) (u : ℕ → ℕ → ℚ) (x : List α) (classes : List ℤ) :
    List (List ℚ) :=
  classes.enum.map fun ic => pColumn calc_nc cal_scores smoothing u x ic.1 ic.2

/-- Embedding of `IcpClassifier.predict` (`icp.py` lines 140-184) on a
calibrated instance, with the instance state (`cal_scores`, `classes`,
`smoothing`) passed explicitly: build the p-value matrix, then either
threshold it elementwise with the strict test `p > significance` (line 182)
when `significance` is truthy, or return it raw. -/
def IcpClassifier.predict {α : Type} (calc_nc : List α → List ℤ → List ℚ)
    (cal_scores : List ℚ) (classes : List ℤ) (smoothing : Bool)
    (u : ℕ → ℕ → ℚ) (x : List α) (significance : Option ℚ) : ClassifierOutput :=
  let p := pMatrix calc_nc cal_scores smoothing u x classes
  if truthy significance then
    ClassifierOutput.sets (p.map (List.map fun v => decide (significance.getD 0 < v)))
  else
    ClassifierOutput.pvals p

/-! ### Stateful `IcpClassifier` / `IcpRegressor` (for the uncalibrated
predict paths, `icp.py` lines 125-129, 161-162, 211-216) -/

/-- Instance state of an `IcpClassifier`: the `BaseIcp` fields plus the
label set (`None` until the first calibrate) and the smoothing flag. -/
structure IcpClassifierState (α : Type) where
  cal_x : Option (List α) := none
  cal_y : Option (List ℤ) := none
  cal_scores : Option (List ℚ) := none
  classes : Option (List ℤ) := none
  smoothing : Bool := true

/-- State produced by `IcpClassifier.__init__(nc_function, smoothing)`:
no calibration data, no scores, `classes = None`. -/
def IcpClassifier.initial {α : Type} (smoothing : Bool) : IcpClassifierState α :=
  { smoothing := smoothing }

/-- Embedding of `IcpClassifier.calibrate`: the `_calibrate_hook` updates
the label set, `_update_calibration_set` updates the calibration set, and
the score vector is recomputed in full. -/
def IcpClassifier.calibrateS {α : Type} (calc_nc : List α → List ℤ → List ℚ)
    (st : IcpClassifierState α) (x : List α) (y : List ℤ) (increment : Bool) :
    IcpClassifierState α :=
  let classes1 := IcpClassifier.update_classes st.classes y increment
  let cs := updateCalPair st.cal_x st.cal_y x y increment
  { st with
    classes := some classes1
    cal_x := some cs.1
    cal_y := some cs.2
    cal_scores := some (calc_nc cs.1 cs.2) }

/-- Embedding of `IcpClassifier.predict` including its failure behaviour on
an uncalibrated instance.  Line 162 evaluates `self.classes.size` first: if
`classes` is still `None`, Python raises `AttributeError` on `None.size`.
Otherwise `self.cal_scores` is only read inside the per-class loop (line
171), so with a nonempty class list and no `cal_scores` attribute the read
raises `AttributeError`; with an empty class list the loop body never runs
and the (empty) matrix is returned.  (Through the public API `classes` and
`cal_scores` are always set together by `calibrate`.) -/
def IcpClassifier.predictS {α : Type} (calc_nc : List α → List ℤ → List ℚ)
    (u : ℕ → ℕ → ℚ) (st : IcpClassifierState α) (x : List α)
    (significance : Option ℚ) : Except PyError ClassifierOutput :=
  match st.classes with
  | none => Except.error (PyError.attributeError "NoneType object has no attribute size")
  | some classes =>
    match st.cal_scores with
    | some cal_scores =>
      Except.ok (IcpClassifier.predict calc_nc cal_scores classes st.smoothing u x significance)
    | none =>
      if classes.isEmpty then
        Except.ok (IcpClassifier.predict calc_nc [] classes st.smoothing u x significance)
      else
        Except.error (PyError.attributeError "IcpClassifier object has no attribute cal_scores")

/-- Instance state of an `IcpRegressor` (`BaseIcp` fields only; regression
targets are rationals). -/
structure IcpRegressorState (α : Type) where
  cal_x : Option (List α) := none
  cal_y : Option (List ℚ) := none
  cal_scores : Option (List ℚ) := none

/-- State produced by `IcpRegressor.__init__(nc_function)`. -/
def IcpRegressor.initial {α : Type} : IcpRegressorState α := {}

/-- Embedding of `IcpRegressor.predict` (`icp.py` lines 214-216): it reads
`self.cal_scores` (raising `AttributeError` when the attribute was never
created by `calibrate`) and otherwise delegates to the nonconformity
function's own `predict(x, cal_scores, significance)`, whose behaviour is
the abstract parameter `nc_predict` with an abstract result type `β`. -/
def IcpRegressor.predictS {α β : Type} (nc_predict : List α → List ℚ → Option ℚ → β)
    (st : IcpRegressorState α) (x : List α) (significance : Option ℚ) :
    Except PyError β :=
  match st.cal_scores with
  | none => Except.error (PyError.attributeError "IcpRegressor object has no attribute cal_scores")
  | some cal_scores => Except.ok (nc_predict x cal_scores significance)

/-! ### `AggregatedCp.predict` (`acp.py` lines 159-169) -/

/-- The significance value `AggregatedCp.predict` passes to every ensemble
member (`acp.py` lines 160-162): `significance if is_regression else None`,
where `is_regression` is `self.cp_class.get_problem_type() == 'regression'`. -/
def AggregatedCp.memberSignificance (cp_class : CpClass) (significance : Option ℚ) :
    Option ℚ :=
  if get_problem_type cp_class = some "regression" then significance else none

/-- The aggregated prediction matrix of `AggregatedCp.predict` (`acp.py`
lines 162-164): every member's `predict` - modelled as an abstract function
from the significance it receives to its numeric output matrix, already
closed over the query set - is invoked with the routed significance, and the
stack of member outputs is reduced by the configured `p_agg_func`. -/
def AggregatedCp.aggregated (cp_class : CpClass)
    (p_agg_func : List (List (List ℚ)) → List (List ℚ))
    (members : List (Option ℚ → List (List ℚ))) (significance : Option ℚ) :
    List (List ℚ) :=
  p_agg_func (members.map fun m => m (AggregatedCp.memberSignificance cp_class significance))

/-- Embedding of `AggregatedCp.predict` (`acp.py` lines 159-169): compute
the aggregated matrix, then, when `significance` is truthy and the wrapped
class is not recognised as regression, threshold with the non-strict test
`predictions >= significance` (line 167); otherwise return the aggregated
matrix raw. -/
def AggregatedCp.predict (cp_class : CpClass)
    (p_agg_func : List (List (List ℚ)) → List (List ℚ))
    (members : List (Option ℚ → List (List ℚ))) (significance : Option ℚ) :
    ClassifierOutput :=
  let is_regression : Bool := decide (get_problem_type cp_class = some "regression")
  let predictions := AggregatedCp.aggregated cp_class p_agg_func members significance
  if truthy significance && !is_regression then
    ClassifierOutput.sets (predictions.map (List.map fun v => decide (significance.getD 0 ≤ v)))
  else
    ClassifierOutput.pvals predictions

/-! ### Helper lemmas -/

/-- Reading column `i` of the p-value matrix in range gives `pColumn` at the
`i`-th class. -/
theorem pMatrix_getD {α : Type} (calc_nc : List α → List ℤ → List ℚ)
    (cal_scores : List ℚ) (smoothing : Bool) (u : ℕ → ℕ → ℚ) (x : List α)
    (classes : List ℤ) (i : ℕ) (hi : i < classes.length) :
    (pMatrix calc_nc cal_scores smoothing u x classes).getD i []
      = pColumn calc_nc cal_scores smoothing u x i (classes.getD i 0) := by
  have hlen : i < (pMatrix calc_nc cal_scores smoothing u x classes).length := by
    simp [pMatrix, hi]
  rw [List.getD_eq_getElem _ _ hlen]
  simp [pMatrix, List.getD_eq_getElem _ _ hi, List.getElem?_eq_getElem hi]

/-- Reading row `j` of a p-value column in range gives the closed-form
entry: the calibration-score count quotient plus the smoothing addend. -/
theorem pColumn_getD {α : Type} (calc_nc : List α → List ℤ → List ℚ)
    (cal_scores : List ℚ) (smoothing : Bool) (u : ℕ → ℕ → ℚ) (x : List α)
    (i : ℕ) (c : ℤ) (j : ℕ) (hj : j < x.length)
    (hlen : (calc_nc x (List.replicate x.length c)).length = x.length) :
    (pColumn calc_nc cal_scores smoothing u x i c).getD j 0
      = (npSumGe cal_scores ((calc_nc x (List.replicate x.length c)).getD j 0) : ℚ)
            / ((cal_scores.length : ℚ) + 1)
        + smoothTerm cal_scores.length smoothing u i j := by
  have hj' : j < (pColumn calc_nc cal_scores smoothing u x i c).length := by
    simp [pColumn, hlen, hj]
  rw [List.getD_eq_getElem _ _ hj']
  have hjs : j < (calc_nc x (List.replicate x.length c)).length := by omega
  simp [pColumn, List.getD_eq_getElem _ _ hjs, List.getElem?_eq_getElem hjs]

/-- Length of a p-value column under the nonconformity-function contract. -/
theorem pColumn_length {α : Type} (calc_nc : List α → List ℤ → List ℚ)
    (cal_scores : List ℚ) (smoothing : Bool) (u : ℕ → ℕ → ℚ) (x : List α)
    (i : ℕ) (c : ℤ)
    (hlen : (calc_nc x (List.replicate x.length c)).length = x.length) :
    (pColumn calc_nc cal_scores smoothing u x i c).length = x.length := by
  simp [pColumn, hlen]

/-- Reading an in-range entry of an elementwise boolean thresholding of a
matrix: the threshold test applied to the matrix entry.  The default `d`
must itself fail the test so that the inner out-of-range default `false`
is consistent. -/
theorem map_map_getD (m : List (List ℚ)) (g : ℚ → Bool) (d : ℚ)
    (hd : g d = false) (i j : ℕ) :
    ((m.map (List.map g)).getD i []).getD j false = g ((m.getD i []).getD j d) := by
  rcases lt_or_le i m.length with hi | hi
  · have hi' : i < (m.map (List.map g)).length := by simpa using hi
    rw [List.getD_eq_getElem _ _ hi', List.getD_eq_getElem _ _ hi]
    simp only [List.getElem_map]
    rcases lt_or_le j m[i].length with hj | hj
    · have hj' : j < (m[i].map g).length := by simpa using hj
      rw [List.getD_eq_getElem _ _ hj', List.getD_eq_getElem _ _ hj]
      simp
    · have hj' : (m[i].map g).length ≤ j := by simpa using hj
      rw [List.getD_eq_default _ _ hj', List.getD_eq_default _ _ hj, hd]
  · have h1 : (m.map (List.map g)).length ≤ i := by simpa using hi
    rw [List.getD_eq_default _ _ h1, List.getD_eq_default _ _ hi]
    simp [hd]

/-! ### Claims -/

/-- C1: the claim states that the class-level problem-type tag is fixed per
concrete variant, with `IcpClassifier.get_problem_type()` returning the
string `classification` and `IcpRegressor.get_problem_type()` returning
`regression`.  Because of CPython name mangling the method body reads
`_BaseIcp__problem_type`, an attribute only `BaseIcp` defines (as `None`),
while the subclass assignments create differently mangled attributes that
are never read - so the code returns `None` for every class. -/
theorem C1_get_problem_type_always_none :
    get_problem_type CpClass.icpClassifier = none
    ∧ get_problem_type CpClass.icpRegressor = none
    ∧ get_problem_type CpClass.baseIcp = none :=
  ⟨rfl, rfl, rfl⟩

/-- C2: the claim states that the regression variant of `AggregatedCp`
passes the caller's significance to every ensemble member while the
classification variant passes `None`.  Since `get_problem_type` returns
`None` for every class, `is_regression` is always false and every member
receives `None` - even when the wrapped class is `IcpRegressor`: the
classification half of the claim holds, the regression half does not. -/
theorem C2_members_always_receive_none :
    AggregatedCp.memberSignificance CpClass.icpRegressor (some (1/10)) = none
    ∧ AggregatedCp.memberSignificance CpClass.icpClassifier (some (1/10)) = none
    ∧ ∀ (p_agg_func : List (List (List ℚ)) → List (List ℚ))
        (members : List (Option ℚ → List (List ℚ))) (s : Option ℚ),
        AggregatedCp.aggregated CpClass.icpRegressor p_agg_func members s
          = p_agg_func (members.map fun m => m none) :=
  ⟨rfl, rfl, fun _ _ _ => rfl⟩

/-- C5: `BaseIcp.calibrate` replaces the calibration set with `(x, y)` when
`increment` is false; appends `(x, y)` to the prior set when `increment` is
true and a prior set exists; behaves as a fresh assignment when `increment`
is true but no prior set exists; and in every case stores the score vector
obtained by applying the nonconformity function to the entire resulting
calibration set. -/
theorem C5_calibrate_behaviour {α κ : Type} (calc_nc : List α → List κ → List ℚ)
    (st : BaseIcpState α κ) (x : List α) (y : List κ) :
    ((BaseIcp.calibrate calc_nc st x y false).cal_x = some x
      ∧ (BaseIcp.calibrate calc_nc st x y false).cal_y = some y)
    ∧ (∀ cx cy, st.cal_x = some cx → st.cal_y = some cy →
        (BaseIcp.calibrate calc_nc st x y true).cal_x = some (cx ++ x)
        ∧ (BaseIcp.calibrate calc_nc st x y true).cal_y = some (cy ++ y))
    ∧ (st.cal_x = none ∨ st.cal_y = none →
        (BaseIcp.calibrate calc_nc st x y true).cal_x = some x
        ∧ (BaseIcp.calibrate calc_nc st x y true).cal_y = some y)
    ∧ (∀ increment,
        (BaseIcp.calibrate calc_nc st x y increment).cal_scores
          = some (calc_nc
              ((BaseIcp.calibrate calc_nc st x y increment).cal_x.getD [])
              ((BaseIcp.calibrate calc_nc st x y increment).cal_y.getD []))) := by
  refine ⟨⟨?_, ?_⟩, fun cx cy hx hy => ?_, fun h => ?_, fun increment => rfl⟩
  · simp [BaseIcp.calibrate, BaseIcp.update_calibration_set, updateCalPair]
  · simp [BaseIcp.calibrate, BaseIcp.update_calibration_set, updateCalPair]
  · constructor <;>
      simp [BaseIcp.calibrate, BaseIcp.update_calibration_set, updateCalPair, hx, hy]
  · rcases h with h | h <;> constructor <;>
      simp [BaseIcp.calibrate, BaseIcp.update_calibration_set, updateCalPair, h]

/-- C5 witness: the appending branch evaluated at a concrete prior
calibration set. -/
theorem C5_calibrate_behaviour_witness :
    (BaseIcp.calibrate (fun a b => [(a.length : ℚ) + b.length])
        ({ cal_x := some [(5:ℚ)], cal_y := some [(7:ℚ)] } : BaseIcpState ℚ ℚ)
        [6] [8] true).cal_x = some [5, 6]
    ∧ (BaseIcp.calibrate (fun a b => [(a.length : ℚ) + b.length])
        ({ cal_x := some [(5:ℚ)], cal_y := some [(7:ℚ)] } : BaseIcpState ℚ ℚ)
        [6] [8] true).cal_y = some [7, 8] :=
  (C5_calibrate_behaviour _ _ _ _).2.1 [5] [7] rfl rfl

/-- C6 (amended): predicting on a never-calibrated `IcpClassifier` or
`IcpRegressor` does fail before producing any p-value or prediction output,
but with a plain `AttributeError` (reading `.size` of the `None`-valued
`classes`, resp. the never-created `cal_scores` attribute), not with the
dedicated `NotCalibratedError` the specification names - no such error type
exists anywhere in the code. -/
theorem C6_uncalibrated_predict_raises {α β : Type}
    (calc_nc : List α → List ℤ → List ℚ) (u : ℕ → ℕ → ℚ)
    (nc_predict : List α → List ℚ → Option ℚ → β)
    (smoothing : Bool) (x : List α) (significance : Option ℚ) :
    IcpClassifier.predictS calc_nc u (IcpClassifier.initial smoothing) x significance
      = Except.error (PyError.attributeError "NoneType object has no attribute size")
    ∧ IcpRegressor.predictS nc_predict IcpRegressor.initial x significance
      = Except.error (PyError.attributeError "IcpRegressor object has no attribute cal_scores") :=
  ⟨rfl, rfl⟩

/-- C6 counterexample: at a concrete uncalibrated classifier instance the
predict call does not raise the claimed `NotCalibratedError`; it raises an
`AttributeError`. -/
theorem C6_counterexample :
    IcpClassifier.predictS (fun _ _ => ([] : List ℚ)) (fun _ _ => 0)
        (IcpClassifier.initial true : IcpClassifierState Unit) [()] none
      ≠ Except.error PyError.notCalibratedError
    ∧ IcpClassifier.predictS (fun _ _ => ([] : List ℚ)) (fun _ _ => 0)
        (IcpClassifier.initial true : IcpClassifierState Unit) [()] none
      = Except.error (PyError.attributeError "NoneType object has no attribute size") := by
  refine ⟨?_, rfl⟩
  simp [IcpClassifier.predictS, IcpClassifier.initial]

/-- C9: under an incremental calibrate call the classifier's label set
becomes the union of the previous classes with the distinct labels of the
new `y` - hence it is a superset of the previous label set and never
shrinks - while a non-incremental call resets it to the labels of `y`. -/
theorem C9_classes_monotone (prior : Option (List ℤ)) (y : List ℤ) :
    (IcpClassifier.update_classes prior y true).toFinset
        = (prior.getD []).toFinset ∪ y.toFinset
    ∧ (prior.getD []).toFinset ⊆ (IcpClassifier.update_classes prior y true).toFinset
    ∧ (IcpClassifier.update_classes prior y false).toFinset = y.toFinset := by
  have hu : ∀ l : List ℤ, (npUnique l).toFinset = l.toFinset := fun l =>
    Finset.sort_toFinset _ _
  have h1 : (IcpClassifier.update_classes prior y true).toFinset
      = (prior.getD []).toFinset ∪ y.toFinset := by
    cases prior with
    | none => simp [IcpClassifier.update_classes, hu]
    | some cs => simp [IcpClassifier.update_classes, hu, List.toFinset_append]
  refine ⟨h1, by rw [h1]; exact Finset.subset_union_left, ?_⟩
  cases prior <;> simp [IcpClassifier.update_classes, hu]

/-- C10: a significance of `0` is falsy under Python truthiness, so both
`IcpClassifier.predict` and a classification `AggregatedCp.predict` skip the
thresholding branch and return the raw (aggregated) p-value matrix, exactly
as they do for `significance=None`. -/
theorem C10_zero_significance_gives_pvalues {α : Type}
    (calc_nc : List α → List ℤ → List ℚ) (cal_scores : List ℚ)
    (classes : List ℤ) (smoothing : Bool) (u : ℕ → ℕ → ℚ) (x : List α)
    (p_agg_func : List (List (List ℚ)) → List (List ℚ))
    (members : List (Option ℚ → List (List ℚ))) :
    IcpClassifier.predict calc_nc cal_scores classes smoothing u x (some 0)
        = ClassifierOutput.pvals (pMatrix calc_nc cal_scores smoothing u x classes)
    ∧ IcpClassifier.predict calc_nc cal_scores classes smoothing u x (some 0)
        = IcpClassifier.predict calc_nc cal_scores classes smoothing u x none
    ∧ AggregatedCp.predict CpClass.icpClassifier p_agg_func members (some 0)
        = ClassifierOutput.pvals
            (AggregatedCp.aggregated CpClass.icpClassifier p_agg_func members (some 0))
    ∧ AggregatedCp.predict CpClass.icpClassifier p_agg_func members (some 0)
        = AggregatedCp.predict CpClass.icpClassifier p_agg_func members none := by
  have hcls : get_problem_type CpClass.icpClassifier = none := rfl
  refine ⟨?_, ?_, ?_, ?_⟩ <;>
    simp [IcpClassifier.predict, AggregatedCp.predict, AggregatedCp.aggregated,
      AggregatedCp.memberSignificance, truthy, hcls]

/-- Arithmetic bounds for a p-value entry: with `cnt ≤ n` and a smoothing
addend `t ∈ [0, 1]`, the entry `cnt/(n+1) + t/(n+1)` lies in `[0, 1]`. -/
theorem pval_entry_bounds (n cnt : ℕ) (hcnt : cnt ≤ n) (t : ℚ)
    (ht0 : 0 ≤ t) (ht1 : t ≤ 1) :
    0 ≤ (cnt : ℚ) / ((n : ℚ) + 1) + t / ((n : ℚ) + 1)
    ∧ (cnt : ℚ) / ((n : ℚ) + 1) + t / ((n : ℚ) + 1) ≤ 1 := by
  have hn : (0 : ℚ) < (n : ℚ) + 1 := by positivity
  constructor
  · positivity
  · rw [div_add_div_same, div_le_one hn]
    have hc : (cnt : ℚ) ≤ (n : ℚ) := by exact_mod_cast hcnt
    linarith

/-- C3: for a calibrated classifier, the p-value that `predict` computes for
query row `j` and class column `i` equals the number of calibration scores
greater than or equal to the nonconformity score of the (query, class) pair
divided by `n_cal + 1`, plus the smoothing term: the uniform draw for that
query-class pair over `n_cal + 1` when smoothing is enabled, and the
constant `1 / (n_cal + 1)` when it is disabled. -/
theorem C3_pvalue_formula {α : Type} (calc_nc : List α → List ℤ → List ℚ)
    (cal_scores : List ℚ) (classes : List ℤ) (smoothing : Bool)
    (u : ℕ → ℕ → ℚ) (x : List α) (i j : ℕ)
    (hi : i < classes.length) (hj : j < x.length)
    (hlen : (calc_nc x (List.replicate x.length (classes.getD i 0))).length = x.length) :
    (IcpClassifier.predict calc_nc cal_scores classes smoothing u x none).entryP i j
      = (npSumGe cal_scores
            ((calc_nc x (List.replicate x.length (classes.getD i 0))).getD j 0) : ℚ)
          / ((cal_scores.length : ℚ) + 1)
        + (if smoothing then u j i else 1) / ((cal_scores.length : ℚ) + 1) := by
  have h1 : IcpClassifier.predict calc_nc cal_scores classes smoothing u x none
      = ClassifierOutput.pvals (pMatrix calc_nc cal_scores smoothing u x classes) := rfl
  rw [h1]
  show ((pMatrix calc_nc cal_scores smoothing u x classes).getD i []).getD j 0 = _
  rw [pMatrix_getD _ _ _ _ _ _ _ hi, pColumn_getD _ _ _ _ _ _ _ _ hj hlen]
  rfl

/-- C3 witness: the formula evaluated on a concrete calibrated classifier
(two calibration scores `5, 12`, classes `0, 1`, nonconformity score of a
row equal to its feature value, smoothing disabled), giving p-value
`1/3 + 1/3 = 2/3` for query `10` under class `0`. -/
theorem C3_pvalue_formula_witness :
    (IcpClassifier.predict (fun xs _ => xs)
        [5, 12] [0, 1] false (fun _ _ => 0) [10, 3] none).entryP 0 0 = 2/3 := by
  have h := C3_pvalue_formula (fun xs _ => xs)
    [5, 12] [0, 1] false (fun _ _ => 0) [10, 3] 0 0
    (by decide) (by decide) (by decide)
  rw [h]
  have e : npSumGe [5, 12] (((fun (xs : List ℚ) (_ : List ℤ) => xs) [10, 3]
      (List.replicate ([10, 3] : List ℚ).length (([0, 1] : List ℤ).getD 0 0))).getD 0 0) = 1 := by
    decide
  rw [e]
  norm_num

/-- C7: with `significance=None` a calibrated classifier's `predict` returns
a matrix in which every entry lies in the closed interval `[0, 1]`, and when
smoothing is disabled every entry is additionally at least `1/(n_cal + 1)`;
the hypothesis on `u` records that `np.random.uniform(0, 1)` draws lie in
`[0, 1)`. -/
theorem C7_pvalues_well_formed {α : Type} (calc_nc : List α → List ℤ → List ℚ)
    (cal_scores : List ℚ) (classes : List ℤ) (smoothing : Bool)
    (u : ℕ → ℕ → ℚ) (x : List α)
    (hu : ∀ j i, 0 ≤ u j i ∧ u j i < 1) (m : List (List ℚ))
    (hm : IcpClassifier.predict calc_nc cal_scores classes smoothing u x none
        = ClassifierOutput.pvals m) :
    ∀ col ∈ m, ∀ v ∈ col,
      (0 ≤ v ∧ v ≤ 1)
      ∧ (smoothing = false → 1 / ((cal_scores.length : ℚ) + 1) ≤ v) := by
  have hm' : m = pMatrix calc_nc cal_scores smoothing u x classes := by
    have h1 : IcpClassifier.predict calc_nc cal_scores classes smoothing u x none
        = ClassifierOutput.pvals (pMatrix calc_nc cal_scores smoothing u x classes) := rfl
    rw [h1] at hm
    exact (ClassifierOutput.pvals.injEq _ _).mp hm.symm
  subst hm'
  intro col hcol v hv
  rw [pMatrix] at hcol
  obtain ⟨ic, _, rfl⟩ := List.mem_map.mp hcol
  obtain ⟨k, hk, rfl⟩ := List.mem_iff_getElem.mp hv
  have hk1 : k < (calc_nc x (List.replicate x.length ic.2)).length := by
    simp [pColumn] at hk
    omega
  have hentry : (pColumn calc_nc cal_scores smoothing u x ic.1 ic.2)[k]
      = (npSumGe cal_scores ((calc_nc x (List.replicate x.length ic.2))[k]) : ℚ)
          / ((cal_scores.length : ℚ) + 1)
        + (if smoothing then u k ic.1 else 1) / ((cal_scores.length : ℚ) + 1) := by
    simp [pColumn, List.getElem_zipWith, smoothTerm]
  rw [hentry]
  have hcnt : npSumGe cal_scores ((calc_nc x (List.replicate x.length ic.2))[k])
      ≤ cal_scores.length := List.countP_le_length _
  have ht : 0 ≤ (if smoothing then u k ic.1 else 1)
      ∧ (if smoothing then u k ic.1 else 1) ≤ (1 : ℚ) := by
    cases smoothing with
    | false => simp
    | true => exact ⟨(hu k ic.1).1, le_of_lt (hu k ic.1).2⟩
  refine ⟨pval_entry_bounds _ _ hcnt _ ht.1 ht.2, fun hsm => ?_⟩
  subst hsm
  simp only [Bool.false_eq_true, if_false]
  have h0 : 0 ≤ (npSumGe cal_scores ((calc_nc x (List.replicate x.length ic.2))[k]) : ℚ)
      / ((cal_scores.length : ℚ) + 1) := by positivity
  linarith

/-- C7 witness: the bounds evaluated on a concrete calibrated classifier
(calibration scores `5, 12`, single class `0`, single query `10`, smoothing
disabled); the single matrix entry is `1/3 + 1/3` and the lower bound
`1/(n_cal + 1)` is `1/3`. -/
theorem C7_pvalues_well_formed_witness :
    (0 ≤ (npSumGe [5, 12] 10 : ℚ) / ((([5, 12] : List ℚ).length : ℚ) + 1)
          + smoothTerm ([5, 12] : List ℚ).length false (fun _ _ => 1/2) 0 0
      ∧ (npSumGe [5, 12] 10 : ℚ) / ((([5, 12] : List ℚ).length : ℚ) + 1)
          + smoothTerm ([5, 12] : List ℚ).length false (fun _ _ => 1/2) 0 0 ≤ 1)
    ∧ 1 / ((([5, 12] : List ℚ).length : ℚ) + 1)
        ≤ (npSumGe [5, 12] 10 : ℚ) / ((([5, 12] : List ℚ).length : ℚ) + 1)
          + smoothTerm ([5, 12] : List ℚ).length false (fun _ _ => 1/2) 0 0 := by
  have h := C7_pvalues_well_formed (fun xs _ => xs) [5, 12] [0] false (fun _ _ => 1/2) [10]
    (fun _ _ => ⟨by norm_num, by norm_num⟩)
    (pMatrix (fun xs _ => xs) [5, 12] false (fun _ _ => 1/2) [10] [0]) rfl
    (pColumn (fun xs _ => xs) [5, 12] false (fun _ _ => 1/2) [10] 0 0)
    (List.mem_singleton.mpr rfl)
    ((npSumGe [5, 12] 10 : ℚ) / ((([5, 12] : List ℚ).length : ℚ) + 1)
      + smoothTerm ([5, 12] : List ℚ).length false (fun _ _ => 1/2) 0 0)
    (List.mem_singleton.mpr rfl)
  exact ⟨h.1, h.2 rfl⟩

/-- With a truthy significance, an in-range entry of the classifier's
boolean output is the strict comparison of the significance against the
corresponding p-value (`icp.py` line 182). -/
theorem predict_some_entryB {α : Type} (calc_nc : List α → List ℤ → List ℚ)
    (cal_scores : List ℚ) (classes : List ℤ) (smoothing : Bool)
    (u : ℕ → ℕ → ℚ) (x : List α) (ε : ℚ) (hε : ε ≠ 0) (i j : ℕ)
    (hj : j < ((pMatrix calc_nc cal_scores smoothing u x classes).getD i []).length) :
    (IcpClassifier.predict calc_nc cal_scores classes smoothing u x (some ε)).entryB i j
      = decide (ε < ((pMatrix calc_nc cal_scores smoothing u x classes).getD i []).getD j 0) := by
  have htr : truthy (some ε) = true := by simp [truthy, hε]
  have hpred : IcpClassifier.predict calc_nc cal_scores classes smoothing u x (some ε)
      = ClassifierOutput.sets ((pMatrix calc_nc cal_scores smoothing u x classes).map
          (List.map fun v => decide (ε < v))) := by
    simp [IcpClassifier.predict, htr]
  rw [hpred]
  show (((pMatrix calc_nc cal_scores smoothing u x classes).map
      (List.map fun v => decide (ε < v))).getD i []).getD j false = _
  rw [map_map_getD _ _ ε (by simp), List.getD_eq_getElem _ ε hj, List.getD_eq_getElem _ 0 hj]

/-- With a truthy significance, an in-range entry of a classification
`AggregatedCp`'s boolean output is the non-strict comparison of the
aggregated p-value against the significance (`acp.py` line 167). -/
theorem acp_predict_some_entryB
    (p_agg_func : List (List (List ℚ)) → List (List ℚ))
    (members : List (Option ℚ → List (List ℚ))) (ε : ℚ) (hε : ε ≠ 0) (i j : ℕ)
    (hj : j < ((AggregatedCp.aggregated CpClass.icpClassifier p_agg_func members
        (some ε)).getD i []).length) :
    (AggregatedCp.predict CpClass.icpClassifier p_agg_func members (some ε)).entryB i j
      = decide (ε ≤ ((AggregatedCp.aggregated CpClass.icpClassifier p_agg_func members
          (some ε)).getD i []).getD j 0) := by
  have htr : truthy (some ε) = true := by simp [truthy, hε]
  have hreg : get_problem_type CpClass.icpClassifier = none := rfl
  have hpred : AggregatedCp.predict CpClass.icpClassifier p_agg_func members (some ε)
      = ClassifierOutput.sets ((AggregatedCp.aggregated CpClass.icpClassifier p_agg_func
          members (some ε)).map (List.map fun v => decide (ε ≤ v))) := by
    simp [AggregatedCp.predict, htr, hreg]
  rw [hpred]
  show (((AggregatedCp.aggregated CpClass.icpClassifier p_agg_func members (some ε)).map
      (List.map fun v => decide (ε ≤ v))).getD i []).getD j false = _
  have hd : decide (ε ≤ ε - 1) = false := decide_eq_false (by linarith)
  rw [map_map_getD _ _ (ε - 1) hd, List.getD_eq_getElem _ (ε - 1) hj,
    List.getD_eq_getElem _ 0 hj]

/-- C4: with a truthy (nonzero) significance `ε`, the lone classifier
includes a label in a query's prediction set iff its p-value is strictly
greater than `ε` (`icp.py` line 182), while a classification `AggregatedCp`
includes a label iff the aggregated p-value is greater than or equal to the
significance (`acp.py` line 167) - the two inequalities differ exactly as
the claim states. -/
theorem C4_threshold_inequalities {α : Type} (calc_nc : List α → List ℤ → List ℚ)
    (cal_scores : List ℚ) (classes : List ℤ) (smoothing : Bool)
    (u : ℕ → ℕ → ℚ) (x : List α) (ε : ℚ) (hε : ε ≠ 0)
    (p_agg_func : List (List (List ℚ)) → List (List ℚ))
    (members : List (Option ℚ → List (List ℚ))) (i j i2 j2 : ℕ)
    (hj : j < ((pMatrix calc_nc cal_scores smoothing u x classes).getD i []).length)
    (hj2 : j2 < ((AggregatedCp.aggregated CpClass.icpClassifier p_agg_func members
        (some ε)).getD i2 []).length) :
    ((IcpClassifier.predict calc_nc cal_scores classes smoothing u x (some ε)).entryB i j = true
      ↔ ε < ((pMatrix calc_nc cal_scores smoothing u x classes).getD i []).getD j 0)
    ∧ ((AggregatedCp.predict CpClass.icpClassifier p_agg_func members (some ε)).entryB i2 j2 = true
      ↔ ε ≤ ((AggregatedCp.aggregated CpClass.icpClassifier p_agg_func members
          (some ε)).getD i2 []).getD j2 0) := by
  constructor
  · rw [predict_some_entryB calc_nc cal_scores classes smoothing u x ε hε i j hj]
    exact ⟨of_decide_eq_true, decide_eq_true⟩
  · rw [acp_predict_some_entryB p_agg_func members ε hε i2 j2 hj2]
    exact ⟨of_decide_eq_true, decide_eq_true⟩

/-- C4 witness: the two threshold inequalities evaluated on a concrete
calibrated classifier (p-value `2/3` against `ε = 1/2`, strict test) and a
concrete one-member classification ensemble (aggregated p-value `1/2`
against `ε = 1/2`, non-strict test). -/
theorem C4_threshold_inequalities_witness :
    ((IcpClassifier.predict (fun xs _ => xs) [5, 12] [0, 1] false (fun _ _ => 0)
        [10, 3] (some (1/2))).entryB 0 0 = true
      ↔ (1/2 : ℚ) < ((pMatrix (fun xs _ => xs) [5, 12] false (fun _ _ => 0)
          [10, 3] [0, 1]).getD 0 []).getD 0 0)
    ∧ ((AggregatedCp.predict CpClass.icpClassifier (fun s => s.headD [])
        [fun _ => [[1/2]]] (some (1/2))).entryB 0 0 = true
      ↔ (1/2 : ℚ) ≤ ((AggregatedCp.aggregated CpClass.icpClassifier (fun s => s.headD [])
          [fun _ => [[1/2]]] (some (1/2))).getD 0 []).getD 0 0) :=
  C4_threshold_inequalities (fun xs _ => xs) [5, 12] [0, 1] false (fun _ _ => 0)
    [10, 3] (1/2) (by norm_num) (fun s => s.headD []) [fun _ => [[1/2]]]
    0 0 0 0 (by decide) (by decide)

/-- C8 (amended): within a single p-value matrix - that is, when the two
predict calls see the same smoothing draws, and in particular whenever
smoothing is disabled, since the output is then independent of the draws -
thresholding at ε1 ≥ ε2 (both nonzero) yields a prediction set contained in
the ε2 set.  Across two real predict calls with smoothing enabled the
inclusion can fail, because each call adds fresh uniform draws (see the
counterexample). -/
theorem C8_monotone_for_fixed_draws {α : Type} (calc_nc : List α → List ℤ → List ℚ)
    (cal_scores : List ℚ) (classes : List ℤ) (smoothing : Bool)
    (u : ℕ → ℕ → ℚ) (x : List α) (ε1 ε2 : ℚ) (i j : ℕ)
    (h21 : ε2 ≤ ε1) (h1 : ε1 ≠ 0) (h2 : ε2 ≠ 0)
    (hj : j < ((pMatrix calc_nc cal_scores smoothing u x classes).getD i []).length)
    (hin : (IcpClassifier.predict calc_nc cal_scores classes smoothing u x
        (some ε1)).entryB i j = true) :
    (IcpClassifier.predict calc_nc cal_scores classes smoothing u x (some ε2)).entryB i j = true
    ∧ ∀ (u1 u2 : ℕ → ℕ → ℚ) (s : Option ℚ),
        IcpClassifier.predict calc_nc cal_scores classes false u1 x s
          = IcpClassifier.predict calc_nc cal_scores classes false u2 x s := by
  constructor
  · rw [predict_some_entryB calc_nc cal_scores classes smoothing u x ε1 h1 i j hj] at hin
    rw [predict_some_entryB calc_nc cal_scores classes smoothing u x ε2 h2 i j hj]
    exact decide_eq_true (lt_of_le_of_lt h21 (of_decide_eq_true hin))
  · intro u1 u2 s
    simp [IcpClassifier.predict, pMatrix, pColumn, smoothTerm]

/-- C8 witness: the inclusion evaluated on a concrete calibrated classifier
(p-value `2/3`, in the ε1 = `3/5` set, hence also in the ε2 = `1/2` set). -/
theorem C8_monotone_for_fixed_draws_witness :
    (IcpClassifier.predict (fun xs _ => xs) [5, 12] [0, 1] false (fun _ _ => 0)
        [10, 3] (some (1/2))).entryB 0 0 = true := by
  have hv : ((pMatrix (fun xs _ => xs) [5, 12] false (fun _ _ => (0:ℚ))
      [10, 3] [0, 1]).getD 0 []).getD 0 0 = 2/3 := by
    rw [pMatrix_getD _ _ _ _ _ _ 0 (by decide), pColumn_getD _ _ _ _ _ 0 _ 0 (by decide) (by decide)]
    norm_num [npSumGe, smoothTerm, List.countP_cons, List.countP_nil]
  have hin : (IcpClassifier.predict (fun xs _ => xs) [5, 12] [0, 1] false (fun _ _ => 0)
      [10, 3] (some (3/5))).entryB 0 0 = true := by
    rw [predict_some_entryB _ _ _ _ _ _ _ (by norm_num) 0 0 (by decide), hv]
    exact decide_eq_true (by norm_num)
  exact (C8_monotone_for_fixed_draws (fun xs _ => xs) [5, 12] [0, 1] false (fun _ _ => 0)
    [10, 3] (3/5) (1/2) 0 0 (by norm_num) (by norm_num) (by norm_num) (by decide) hin).1

/-- C8 counterexample: smoothing is enabled, so each predict call adds fresh
uniform draws; with one calibration score `5`, one class and one query of
score `10`, the first call draws `9/10` and at ε1 = `2/5` includes the class
(p-value `9/20 > 2/5`), while the second call draws `1/10` and at the
smaller ε2 = `3/10` excludes it (p-value `1/20 < 3/10`): the ε1 prediction
set is not a subset of the ε2 prediction set although ε1 ≥ ε2. -/
theorem C8_counterexample :
    ((3/10 : ℚ) ≤ 2/5)
    ∧ (IcpClassifier.predict (fun xs _ => xs) [5] [0] true (fun _ _ => 9/10)
        [10] (some (2/5))).entryB 0 0 = true
    ∧ (IcpClassifier.predict (fun xs _ => xs) [5] [0] true (fun _ _ => 1/10)
        [10] (some (3/10))).entryB 0 0 = false := by
  refine ⟨by norm_num, ?_, ?_⟩
  · rw [predict_some_entryB _ _ _ _ _ _ _ (by norm_num) 0 0 (by decide)]
    have hv : ((pMatrix (fun xs _ => xs) [5] true (fun _ _ => (9/10:ℚ))
        [10] [0]).getD 0 []).getD 0 0 = 9/20 := by
      rw [pMatrix_getD _ _ _ _ _ _ 0 (by decide), pColumn_getD _ _ _ _ _ 0 _ 0 (by decide) (by decide)]
      norm_num [npSumGe, smoothTerm, List.countP_cons, List.countP_nil]
    rw [hv]
    exact decide_eq_true (by norm_num)
  · rw [predict_some_entryB _ _ _ _ _ _ _ (by norm_num) 0 0 (by decide)]
    have hv : ((pMatrix (fun xs _ => xs) [5] true (fun _ _ => (1/10:ℚ))
        [10] [0]).getD 0 []).getD 0 0 = 1/20 := by
      rw [pMatrix_getD _ _ _ _ _ _ 0 (by decide), pColumn_getD _ _ _ _ _ 0 _ 0 (by decide) (by decide)]
      norm_num [npSumGe, smoothTerm, List.countP_cons, List.countP_nil]
    rw [hv]
    exact decide_eq_false (by norm_num)
